import Mathlib

/-!
Verification development for the pure-Python AMQP 1.0 core of
azure-uamqp-python: the wire-type decoder (`uamqp/_decode.py`) and the
asynchronous link state machine (`uamqp/aio/_link_async.py`).

Byte windows (Python `memoryview` slices) are embedded as `List Nat`;
each decoder returns the remaining window together with the decoded
value, or the Python exception it would raise.  Python slicing clamps
out-of-range bounds and raises only on direct indexing (`buffer[i]`)
or on fixed-width `struct.unpack` of a short slice; the embedding
mirrors exactly that behaviour.
-/

namespace UAMQP

/-- A byte window: the contents of a Python `memoryview` slice. -/
abbrev Bytes := List Nat

/-- The Python exceptions the decoder can raise, by exception class.
None of them carries the offending format code or offset.
`outOfFuel` is an artifact of the embedding: recursion through the
dispatch table is bounded by an explicit fuel parameter. -/
inductive PyErr where
  | indexError
  | structError
  | typeError
  | valueError
  | outOfFuel
deriving DecidableEq, Repr

/-- Decoded AMQP values.  Python floats and UUIDs are kept as their raw
big-endian bytes (no claim depends on their arithmetic); Python `dict`s
are kept as insertion-ordered association lists. -/
inductive AVal where
  | null
  | bool (b : Bool)
  | int (i : Int)
  | floatBits (bs : List Nat)
  | doubleBits (bs : List Nat)
  | uuid (bs : List Nat)
  | bytes (bs : List Nat)
  | str (s : String)
  | list (xs : List AVal)
  | map (xs : List (AVal × AVal))

mutual

/-- Structural equality of decoded values (Python `==` on the decoded
objects), used to model `dict` key comparison. -/
def AVal.beq (a b : AVal) : Bool :=
  match a, b with
  | .null, .null => true
  | .bool a, .bool b => a == b
  | .int a, .int b => a == b
  | .floatBits a, .floatBits b => a == b
  | .doubleBits a, .doubleBits b => a == b
  | .uuid a, .uuid b => a == b
  | .bytes a, .bytes b => a == b
  | .str a, .str b => a == b
  | .list xs, .list ys => AVal.listBeq xs ys
  | .map xs, .map ys => AVal.mapBeq xs ys
  | _, _ => false

/-- Pointwise equality of value sequences. -/
def AVal.listBeq (as bs : List AVal) : Bool :=
  match as, bs with
  | [], [] => true
  | a :: as, b :: bs => AVal.beq a b && AVal.listBeq as bs
  | _, _ => false

/-- Pointwise equality of key/value sequences. -/
def AVal.mapBeq (as bs : List (AVal × AVal)) : Bool :=
  match as, bs with
  | [], [] => true
  | (k₁, v₁) :: as, (k₂, v₂) :: bs =>
      AVal.beq k₁ k₂ && AVal.beq v₁ v₂ && AVal.mapBeq as bs
  | _, _ => false

end

instance : BEq AVal := ⟨AVal.beq⟩

/-- Result of one decoder: remaining window and decoded value. -/
abbrev DecRes := Except PyErr (Bytes × AVal)

/-- `buffer[i]` on a Python memoryview: the byte, or `IndexError`. -/
def pyGet (buffer : Bytes) (i : Nat) : Except PyErr Nat :=
  match buffer.get? i with
  | some b => .ok b
  | none => .error .indexError

/-- Big-endian value of a byte sequence. -/
def beNat (bs : Bytes) : Nat := bs.foldl (fun a b => a * 256 + b) 0

/-- `struct.unpack` of an `n`-byte big-endian unsigned field from
`buffer[:n]`: `struct.error` when fewer than `n` bytes remain. -/
def unpackBE (n : Nat) (buffer : Bytes) : Except PyErr Nat :=
  if n ≤ buffer.length then .ok (beNat (buffer.take n)) else .error .structError

/-- Two's-complement reading of an `n`-byte unsigned value. -/
def toSigned (n v : Nat) : Int :=
  if v < 2 ^ (8 * n - 1) then (v : Int) else (v : Int) - 2 ^ (8 * n)

/-- `struct.unpack` of an `n`-byte big-endian signed field. -/
def unpackSignedBE (n : Nat) (buffer : Bytes) : Except PyErr Int :=
  (unpackBE n buffer).map (toSigned n)

/-- `bytes or None`: the empty blob is replaced by Python `None`. -/
def blobOrNull (bs : Bytes) : AVal := if bs.isEmpty then .null else .bytes bs

/-- Python `dict` insertion: an existing key keeps its position and has
its value replaced; a new key is appended. -/
def pyDictInsert {α β : Type} [BEq α] (d : List (α × β)) (k : α) (v : β) :
    List (α × β) :=
  if d.any (fun p => p.1 == k) then d.map (fun p => if p.1 == k then (k, v) else p)
  else d ++ [(k, v)]

/-- Python `dict` lookup returning `None` for a missing key. -/
def pyDictGet {α β : Type} [BEq α] (d : List (α × β)) (k : α) : Option β :=
  (d.find? (fun p => p.1 == k)).map (fun p => p.2)

/-- Python hashability of a decoded value: decoded lists and dicts are
unhashable and make `values[key] = value` raise `TypeError`; every
other decoded value (None, bool, int, float, bytes, str, UUID) is
hashable. -/
def AVal.hashable : AVal → Bool
  | .list _ => false
  | .map _ => false
  | _ => true

/-- Python `values[key] = value` on a decoded key: raises `TypeError`
on an unhashable key, otherwise inserts.  The insert compares keys
with the structural `AVal.beq`, which agrees with Python `==` on the
key classes covered by `AVal.simpleKey`. -/
def pyDictSet (d : List (AVal × AVal)) (k v : AVal) :
    Except PyErr (List (AVal × AVal)) :=
  if k.hashable then .ok (pyDictInsert d k v) else .error .typeError

/-- Keys on which the embedded dict provably coincides with the CPython
dict: hashable, with structural equality agreeing with Python `==`.
Booleans and floats are excluded because of Python's cross-class key
equalities (`True == 1`, `1 == 1.0`, `-0.0 == 0.0`) and the `NaN`
identity rule, which the bit-level embedding does not reproduce. -/
def AVal.simpleKey : AVal → Bool
  | .null => true
  | .int _ => true
  | .bytes _ => true
  | .uuid _ => true
  | .str _ => true
  | _ => false

/-- `_COMPOSITES`: descriptor codes of recognized delivery outcomes. -/
def COMPOSITES (code : Nat) : Option String :=
  match code with
  | 35 => some "received"
  | 36 => some "accepted"
  | 37 => some "rejected"
  | 38 => some "released"
  | 39 => some "modified"
  | _ => none

/-! ## Leaf decoders (`_decode_*` in `_decode.py`) -/

def decode_null (buffer : Bytes) : DecRes := .ok (buffer, .null)

def decode_true (buffer : Bytes) : DecRes := .ok (buffer, .bool true)

def decode_false (buffer : Bytes) : DecRes := .ok (buffer, .bool false)

def decode_zero (buffer : Bytes) : DecRes := .ok (buffer, .int 0)

def decode_empty (buffer : Bytes) : DecRes := .ok (buffer, .list [])

def decode_boolean (buffer : Bytes) : DecRes :=
  .ok (buffer.drop 1, .bool (buffer.take 1 = [1]))

def decode_ubyte (buffer : Bytes) : DecRes := do
  let b ← pyGet buffer 0
  .ok (buffer.drop 1, .int b)

def decode_ushort (buffer : Bytes) : DecRes := do
  let v ← unpackBE 2 buffer
  .ok (buffer.drop 2, .int v)

def decode_uint_small (buffer : Bytes) : DecRes := do
  let b ← pyGet buffer 0
  .ok (buffer.drop 1, .int b)

def decode_uint_large (buffer : Bytes) : DecRes := do
  let v ← unpackBE 4 buffer
  .ok (buffer.drop 4, .int v)

def decode_ulong_small (buffer : Bytes) : DecRes := do
  let b ← pyGet buffer 0
  .ok (buffer.drop 1, .int b)

def decode_ulong_large (buffer : Bytes) : DecRes := do
  let v ← unpackBE 8 buffer
  .ok (buffer.drop 8, .int v)

def decode_byte (buffer : Bytes) : DecRes := do
  let v ← unpackSignedBE 1 buffer
  .ok (buffer.drop 1, .int v)

def decode_short (buffer : Bytes) : DecRes := do
  let v ← unpackSignedBE 2 buffer
  .ok (buffer.drop 2, .int v)

def decode_int_small (buffer : Bytes) : DecRes := do
  let v ← unpackSignedBE 1 buffer
  .ok (buffer.drop 1, .int v)

def decode_int_large (buffer : Bytes) : DecRes := do
  let v ← unpackSignedBE 4 buffer
  .ok (buffer.drop 4, .int v)

def decode_long_small (buffer : Bytes) : DecRes := do
  let v ← unpackSignedBE 1 buffer
  .ok (buffer.drop 1, .int v)

def decode_long_large (buffer : Bytes) : DecRes := do
  let v ← unpackSignedBE 8 buffer
  .ok (buffer.drop 8, .int v)

def decode_float (buffer : Bytes) : DecRes :=
  if 4 ≤ buffer.length then .ok (buffer.drop 4, .floatBits (buffer.take 4))
  else .error .structError

def decode_double (buffer : Bytes) : DecRes :=
  if 8 ≤ buffer.length then .ok (buffer.drop 8, .doubleBits (buffer.take 8))
  else .error .structError

def decode_timestamp (buffer : Bytes) : DecRes := do
  let v ← unpackSignedBE 8 buffer
  .ok (buffer.drop 8, .int v)

def decode_uuid (buffer : Bytes) : DecRes :=
  if 16 ≤ buffer.length then .ok (buffer.drop 16, .uuid (buffer.take 16))
  else .error .valueError

def decode_binary_small (buffer : Bytes) : DecRes := do
  let length ← pyGet buffer 0
  .ok (buffer.drop (1 + length), blobOrNull ((buffer.drop 1).take length))

def decode_binary_large (buffer : Bytes) : DecRes := do
  let length ← unpackBE 4 buffer
  .ok (buffer.drop (4 + length), blobOrNull ((buffer.drop 4).take length))

def decode_string_small (buffer : Bytes) : DecRes := do
  let length ← pyGet buffer 0
  .ok (buffer.drop (1 + length), blobOrNull ((buffer.drop 1).take length))

def decode_string_large (buffer : Bytes) : DecRes := do
  let length ← unpackBE 4 buffer
  .ok (buffer.drop (4 + length), blobOrNull ((buffer.drop 4).take length))

def decode_symbol_small (buffer : Bytes) : DecRes := do
  let length ← pyGet buffer 0
  .ok (buffer.drop (1 + length), blobOrNull ((buffer.drop 1).take length))

def decode_symbol_large (buffer : Bytes) : DecRes := do
  let length ← unpackBE 4 buffer
  .ok (buffer.drop (4 + length), blobOrNull ((buffer.drop 4).take length))

/-! ## Container decoders

The Python containers iterate `for _ in range(...)` over a count read
from the wire, dispatching elements through the global table
`_DECODE_BY_CONSTRUCTOR`; the table is received here as the function
argument `dec` (the dispatcher at one less unit of fuel). -/

/-- The element loop of `_decode_list_small` / `_decode_list_large`
(also the field loop of `decode_frame`): `n` elements, each read as a
constructor byte followed by its body. -/
def elemLoop (dec : Nat → Bytes → DecRes) :
    Nat → Bytes → Except PyErr (Bytes × List AVal)
  | 0, buffer => .ok (buffer, [])
  | n + 1, buffer => do
      let c ← pyGet buffer 0
      let (buf, value) ← dec c (buffer.drop 1)
      let (buf2, values) ← elemLoop dec n buf
      .ok (buf2, value :: values)

/-- The `for _ in range(0, count, 2)` loop of `_decode_map_small` /
`_decode_map_large`: each iteration reads one key and one value and
stores the pair into the accumulated dict.  The iteration count is the
number of `range(0, count, 2)` steps, `⌈count / 2⌉`. -/
def mapLoop (dec : Nat → Bytes → DecRes) :
    Nat → List (AVal × AVal) → Bytes → Except PyErr (Bytes × List (AVal × AVal))
  | 0, values, buffer => .ok (buffer, values)
  | n + 1, values, buffer => do
      let ck ← pyGet buffer 0
      let (b1, key) ← dec ck (buffer.drop 1)
      let cv ← pyGet b1 0
      let (b2, value) ← dec cv (b1.drop 1)
      let values2 ← pyDictSet values key value
      mapLoop dec n values2 b2

/-- The element loop of the array decoders: every element is decoded
with the single subconstructor, no per-element constructor byte. -/
def arrayLoop (dec : Nat → Bytes → DecRes) (sub : Nat) :
    Nat → Bytes → Except PyErr (Bytes × List AVal)
  | 0, buffer => .ok (buffer, [])
  | n + 1, buffer => do
      let (buf, value) ← dec sub buffer
      let (buf2, values) ← arrayLoop dec sub n buf
      .ok (buf2, value :: values)

def decode_list_small (dec : Nat → Bytes → DecRes) (buffer : Bytes) : DecRes := do
  let count ← pyGet buffer 1
  let (buf, values) ← elemLoop dec count (buffer.drop 2)
  .ok (buf, .list values)

def decode_list_large (dec : Nat → Bytes → DecRes) (buffer : Bytes) : DecRes := do
  let count ← unpackBE 4 (buffer.drop 4)
  let (buf, values) ← elemLoop dec count (buffer.drop 8)
  .ok (buf, .list values)

def decode_map_small (dec : Nat → Bytes → DecRes) (buffer : Bytes) : DecRes := do
  let count ← pyGet buffer 1
  let (buf, values) ← mapLoop dec ((count + 1) / 2) [] (buffer.drop 2)
  .ok (buf, .map values)

def decode_map_large (dec : Nat → Bytes → DecRes) (buffer : Bytes) : DecRes := do
  let count ← unpackBE 4 (buffer.drop 4)
  let (buf, values) ← mapLoop dec ((count + 1) / 2) [] (buffer.drop 8)
  .ok (buf, .map values)

def decode_array_small (dec : Nat → Bytes → DecRes) (buffer : Bytes) : DecRes := do
  let count ← pyGet buffer 1
  let sub ← pyGet buffer 2
  let (buf, values) ← arrayLoop dec sub count (buffer.drop 3)
  .ok (buf, .list values)

def decode_array_large (dec : Nat → Bytes → DecRes) (buffer : Bytes) : DecRes := do
  let count ← unpackBE 4 (buffer.drop 4)
  let sub ← pyGet buffer 8
  let (buf, values) ← arrayLoop dec sub count (buffer.drop 9)
  .ok (buf, .list values)

/-- `_decode_described`.  Note the Python rebinding: after
`buffer, value = _DECODE_BY_CONSTRUCTOR[buffer[2]](buffer[3:])` the
name `buffer` denotes the window REMAINING after the body, so the
subsequent `_COMPOSITES[buffer[1]]` lookup reads the second byte of
that remaining window (`KeyError` and `IndexError` both fall through to
returning the bare value). -/
def decode_described (dec : Nat → Bytes → DecRes) (buffer : Bytes) : DecRes := do
  let c ← pyGet buffer 2
  let (buf, value) ← dec c (buffer.drop 3)
  match pyGet buf 1 with
  | .error _ => .ok (buf, value)
  | .ok b =>
      match COMPOSITES b with
      | some composite_type => .ok (buf, .map [(.str composite_type, value)])
      | none => .ok (buf, value)

/-- `_DECODE_BY_CONSTRUCTOR`: the 256-slot dispatch table, indexed by
the 8-bit format code.  Slots not assigned in the source hold `None`,
and calling `None` raises a `TypeError` (which does not carry the
code).  The fuel bounds nesting through the table and is an embedding
artifact. -/
def DECODE_BY_CONSTRUCTOR : Nat → Nat → Bytes → DecRes
  | 0, _, _ => .error .outOfFuel
  | f + 1, code, buffer =>
      match code with
      | 0 => decode_described (DECODE_BY_CONSTRUCTOR f) buffer
      | 64 => decode_null buffer
      | 65 => decode_true buffer
      | 66 => decode_false buffer
      | 67 => decode_zero buffer
      | 68 => decode_zero buffer
      | 69 => decode_empty buffer
      | 80 => decode_ubyte buffer
      | 81 => decode_byte buffer
      | 82 => decode_uint_small buffer
      | 83 => decode_ulong_small buffer
      | 84 => decode_int_small buffer
      | 85 => decode_long_small buffer
      | 86 => decode_boolean buffer
      | 96 => decode_ushort buffer
      | 97 => decode_short buffer
      | 112 => decode_uint_large buffer
      | 113 => decode_int_large buffer
      | 114 => decode_float buffer
      | 128 => decode_ulong_large buffer
      | 129 => decode_long_large buffer
      | 130 => decode_double buffer
      | 131 => decode_timestamp buffer
      | 152 => decode_uuid buffer
      | 160 => decode_binary_small buffer
      | 161 => decode_string_small buffer
      | 163 => decode_symbol_small buffer
      | 176 => decode_binary_large buffer
      | 177 => decode_string_large buffer
      | 179 => decode_symbol_large buffer
      | 192 => decode_list_small (DECODE_BY_CONSTRUCTOR f) buffer
      | 193 => decode_map_small (DECODE_BY_CONSTRUCTOR f) buffer
      | 208 => decode_list_large (DECODE_BY_CONSTRUCTOR f) buffer
      | 209 => decode_map_large (DECODE_BY_CONSTRUCTOR f) buffer
      | 224 => decode_array_small (DECODE_BY_CONSTRUCTOR f) buffer
      | 240 => decode_array_large (DECODE_BY_CONSTRUCTOR f) buffer
      | _ => .error .typeError

/-- The format codes assigned a decoder in `_DECODE_BY_CONSTRUCTOR`. -/
def DISPATCH_CODES : List Nat :=
  [0, 64, 65, 66, 67, 68, 69, 80, 81, 82, 83, 84, 85, 86, 96, 97,
   112, 113, 114, 128, 129, 130, 131, 152, 160, 161, 163, 176, 177, 179,
   192, 193, 208, 209, 224, 240]

/-- Specification-side pair reader used to state the map claim: decode
exactly `n` key/value pairs in sequence, each pair as a key item
(constructor byte plus body) followed by a value item. -/
def decodePairs (dec : Nat → Bytes → DecRes) :
    Nat → Bytes → Except PyErr (Bytes × List (AVal × AVal))
  | 0, buffer => .ok (buffer, [])
  | n + 1, buffer => do
      let ck ← pyGet buffer 0
      let (b1, key) ← dec ck (buffer.drop 1)
      let cv ← pyGet b1 0
      let (b2, value) ← dec cv (b1.drop 1)
      let (b3, pairs) ← decodePairs dec n b2
      .ok (b3, (key, value) :: pairs)

/-- Folding a sequence of decoded pairs into a Python dict in order. -/
def pyDictOfPairs (pairs : List (AVal × AVal)) : List (AVal × AVal) :=
  pairs.foldl (fun d p => pyDictInsert d p.1 p.2) []

/-! ## Frame and payload decoding -/

/-- One store step of the `decode_payload` section walk: the decoded
section body goes under the key selected by the descriptor byte;
descriptor 117 (`data`) accumulates into a list (`append` when the key
exists, a fresh singleton on `KeyError`); descriptors outside the table
fall through without assigning. -/
def payloadStore (message : List (AVal × AVal)) (descriptor : Nat) (value : AVal) :
    List (AVal × AVal) :=
  if descriptor = 112 then pyDictInsert message (.str "header") value
  else if descriptor = 113 then pyDictInsert message (.str "delivery_annotations") value
  else if descriptor = 114 then pyDictInsert message (.str "message_annotations") value
  else if descriptor = 115 then pyDictInsert message (.str "properties") value
  else if descriptor = 116 then pyDictInsert message (.str "application_properties") value
  else if descriptor = 117 then
    match pyDictGet message (.str "data") with
    | some (.list xs) => pyDictInsert message (.str "data") (.list (xs ++ [value]))
    | _ => pyDictInsert message (.str "data") (.list [value])
  else if descriptor = 118 then pyDictInsert message (.str "sequence") value
  else if descriptor = 119 then pyDictInsert message (.str "value") value
  else if descriptor = 120 then pyDictInsert message (.str "footer") value
  else message

/-- The `while buffer:` walk of `decode_payload`.  In Python the walk
terminates because every iteration consumes at least the four leading
bytes of the current section; the embedding bounds the iteration count
explicitly, and the bound `buffer.length` used by `decode_payload`
dominates the number of iterations Python performs. -/
def payloadLoop (dec : Nat → Bytes → DecRes) :
    Nat → List (AVal × AVal) → Bytes → Except PyErr (List (AVal × AVal))
  | _, message, [] => .ok message
  | 0, _, _ :: _ => .error .outOfFuel
  | n + 1, message, buffer => do
      let descriptor ← pyGet buffer 2
      let c ← pyGet buffer 3
      let (buf, value) ← dec c (buffer.drop 4)
      payloadLoop dec n (payloadStore message descriptor value) buf

/-- `decode_payload`: walks the concatenated described sections of a
message body into the section dict. -/
def decode_payload (f : Nat) (buffer : Bytes) : Except PyErr (List (AVal × AVal)) :=
  payloadLoop (DECODE_BY_CONSTRUCTOR f) buffer.length [] buffer

/-- `decode_frame`: reads the performative code at offset 2 and the
field count at offset 5, decodes `count` fields from offset 6 on, and
for a transfer frame (code 20) appends the decoded payload sections of
the remaining bytes as one extra field. -/
def decode_frame (f : Nat) (data : Bytes) : Except PyErr (Nat × List AVal) := do
  let frame_type ← pyGet data 2
  let count ← pyGet data 5
  let (buffer, fields) ← elemLoop (DECODE_BY_CONSTRUCTOR f) count (data.drop 6)
  if frame_type = 20 then do
    let payload ← decode_payload f buffer
    .ok (frame_type, fields ++ [.map payload])
  else .ok (frame_type, fields)

/-! ## Link state machine (`uamqp/aio/_link_async.py`)

The link is embedded as a record of the attributes the verified methods
read or write; each method returns the updated link, the list of frames
and delivery notifications it emits (in program order), and the
exception it raises, if any.  Mutations preceding a `raise` persist, as
they do on the Python object. -/

/-- Modelled from the spec: `LinkState` is defined in
`uamqp/constants.py`, which is not part of the sources; §4.4 lists the
states, matching every member `_link_async.py` uses. -/
inductive LinkState where
  | DETACHED
  | ATTACH_SENT
  | ATTACH_RCVD
  | ATTACHED
  | ERROR
deriving DecidableEq, Repr

/-- Modelled from the spec: `LinkDeliverySettleReason` is defined in
`uamqp/constants.py`, which is not part of the sources; `NotDelivered`
is the only member the link code uses. -/
inductive SettleReason where
  | NotDelivered
deriving DecidableEq, Repr

/-- The attributes of `Link.__init__` that the verified methods read or
write.  Credit counters are integers: transfers can drive
`current_link_credit` to zero or below before an evaluate-status
pass. -/
structure Link where
  state : LinkState
  handle : Nat
  is_closed : Bool
  link_credit : Int
  current_link_credit : Int
  delivery_count : Nat
  remote_handle : Option Nat
  remote_max_message_size : Option Nat
  offered_capabilities : Option (List Nat)
  properties : Option (List (Nat × Nat))
  pending_deliveries : List Nat
deriving DecidableEq, Repr

/-- The fields of an incoming `AttachFrame` that `_incoming_attach`
reads.  `source` and `target` are kept only as present/absent; Python
truthiness of the endpoint objects reduces to that. -/
structure AttachFrame where
  handle : Nat
  source : Option Unit
  target : Option Unit
  max_message_size : Option Nat
  offered_capabilities : Option (List Nat)
  properties : Option (List (Nat × Nat))
deriving DecidableEq, Repr

/-- Observable effects of a link method, in program order: a delivery
`on_settled` notification, an outgoing Flow frame, or an outgoing
Detach frame. -/
inductive LinkEvent where
  | settled (tag : Nat) (reason : SettleReason) (delivery_state : Option Unit)
  | flow (handle : Nat) (delivery_count : Nat) (link_credit : Int)
      (available drain echo properties : Option Int)
  | detachFrame (handle : Nat) (closed : Bool) (error : Option String)
deriving DecidableEq, Repr

/-- An exception raised by a link method. -/
inductive LinkErr where
  | valueError (msg : String)
  | typeError
deriving DecidableEq, Repr

/-- `Link._set_state` (the log line and the cooperative yield have no
observable effect in this model). -/
def set_state (s : Link) (new_state : LinkState) : Link :=
  { s with state := new_state }

/-- `Link._outgoing_flow`: emits one Flow frame populated from the
current attributes, with `available`, `drain`, `echo` and `properties`
all `None`. -/
def outgoing_flow (s : Link) : Link × List LinkEvent :=
  (s, [.flow s.handle s.delivery_count s.current_link_credit none none none none])

/-- `Link._evaluate_status`: when credit is exhausted, replenish it to
the configured `link_credit` and emit a Flow. -/
def evaluate_status (s : Link) : Link × List LinkEvent :=
  if s.current_link_credit ≤ 0 then
    outgoing_flow { s with current_link_credit := s.link_credit }
  else (s, [])

/-- `Link._remove_pending_deliveries`: every pending delivery is
notified with `(LinkDeliverySettleReason.NotDelivered, None)`, and the
map is cleared after all notifications are dispatched. -/
def remove_pending_deliveries (s : Link) : Link × List LinkEvent :=
  ({ s with pending_deliveries := [] },
   s.pending_deliveries.map (fun tag => .settled tag .NotDelivered none))

/-- `Link._outgoing_detach`: emits the Detach frame, then (only when
closing) sets `_is_closed`. -/
def outgoing_detach (s : Link) (close : Bool) (error : Option String) :
    Link × List LinkEvent :=
  ((if close then { s with is_closed := true } else s),
   [.detachFrame s.handle close error])

/-- `Link.detach`. -/
def detach (s : Link) (close : Bool) (error : Option String) :
    Link × List LinkEvent × Option LinkErr :=
  if s.is_closed then (s, [], some (.valueError "Link already closed."))
  else
    let (s1, ev1) := remove_pending_deliveries s
    if s1.state = .ATTACH_SENT ∨ s1.state = .ATTACH_RCVD then
      let (s2, ev2) := outgoing_detach s1 close error
      (set_state s2 .DETACHED, ev1 ++ ev2, none)
    else if s1.state = .ATTACHED then
      let (s2, ev2) := outgoing_detach s1 close error
      (set_state s2 .ATTACH_SENT, ev1 ++ ev2, none)
    else (s1, ev1, none)

/-- The closing state update of `_incoming_attach`: DETACHED →
ATTACH_RCVD, ATTACH_SENT → ATTACHED, anything else unchanged. -/
def attach_transition (s : Link) : Link :=
  if s.state = .DETACHED then set_state s .ATTACH_RCVD
  else if s.state = .ATTACH_SENT then set_state s .ATTACHED
  else s

/-- `Link._incoming_attach`.  Python truthiness decides the properties
merge: a `None` or empty local dict takes plain assignment of the
peer's value, while a non-empty local dict is updated in place —
`dict.update(None)` raising `TypeError` when the peer sent no
properties is preserved. -/
def incoming_attach (s : Link) (frame : AttachFrame) :
    Link × List LinkEvent × Option LinkErr :=
  if s.is_closed then (s, [], some (.valueError "Invalid link"))
  else if frame.source = none ∨ frame.target = none then
    let (s1, ev1) := remove_pending_deliveries s
    (set_state s1 .DETACHED, ev1, some (.valueError "Invalid link"))
  else
    let s1 := { s with remote_handle := some frame.handle,
                       remote_max_message_size := frame.max_message_size,
                       offered_capabilities := frame.offered_capabilities }
    match s1.properties with
    | some (p :: ps) =>
        match frame.properties with
        | some fp =>
            let merged := fp.foldl (fun d q => pyDictInsert d q.1 q.2) (p :: ps)
            (attach_transition { s1 with properties := some merged }, [], none)
        | none => (s1, [], some .typeError)
    | _ => (attach_transition { s1 with properties := frame.properties }, [], none)

/-! ## Concrete links used by the witnesses -/

/-- A live link: attached, not closed, two pending deliveries, credit
exhausted. -/
def sampleLink : Link :=
  { state := .ATTACHED
    handle := 1
    is_closed := false
    link_credit := 300
    current_link_credit := 0
    delivery_count := 5
    remote_handle := none
    remote_max_message_size := none
    offered_capabilities := none
    properties := none
    pending_deliveries := [11, 12] }

/-- The sample link after a closing detach. -/
def closedLink : Link := { sampleLink with is_closed := true }

/-- An incoming attach whose peer omitted the source. -/
def noSourceFrame : AttachFrame :=
  { handle := 3
    source := none
    target := some ()
    max_message_size := some 65536
    offered_capabilities := none
    properties := none }

/-! ## Claims about the link state machine -/

/-- C6: an `_evaluate_status` pass on a link whose `current_link_credit`
is ≤ 0 resets the credit to the configured `link_credit` and emits
exactly one Flow frame carrying the handle, the delivery count, the
post-reset credit, and null `available`/`drain`/`echo`/`properties`;
with positive credit it emits nothing and changes nothing; in either
case the credit is non-negative afterwards whenever the configured
credit is positive. -/
theorem c6_evaluate_status (s : Link) (hpos : 0 < s.link_credit) :
    (s.current_link_credit ≤ 0 →
      evaluate_status s =
        ({ s with current_link_credit := s.link_credit },
         [.flow s.handle s.delivery_count s.link_credit none none none none])) ∧
    (0 < s.current_link_credit → evaluate_status s = (s, [])) ∧
    0 ≤ (evaluate_status s).1.current_link_credit := by
  unfold evaluate_status outgoing_flow
  by_cases h : s.current_link_credit ≤ 0 <;> simp [h] <;> omega

/-- Witness for C6 at a concrete link with exhausted credit. -/
theorem c6_evaluate_status_witness :
    (0 : Int) < sampleLink.link_credit ∧
    ((sampleLink.current_link_credit ≤ 0 →
       evaluate_status sampleLink =
         ({ sampleLink with current_link_credit := sampleLink.link_credit },
          [.flow sampleLink.handle sampleLink.delivery_count sampleLink.link_credit
            none none none none])) ∧
     (0 < sampleLink.current_link_credit →
       evaluate_status sampleLink = (sampleLink, [])) ∧
     0 ≤ (evaluate_status sampleLink).1.current_link_credit) :=
  ⟨by decide, c6_evaluate_status sampleLink (by decide)⟩

/-- C7: `detach(close=True)` on an attached, not-closed link notifies
every pending delivery with `NotDelivered` and no state, empties the
pending map, emits one Detach frame with `closed=true` (after the
notifications), records `is_closed` once the frame is out, and leaves
the link in `ATTACH_SENT`. -/
theorem c7_detach_close (s : Link) (hstate : s.state = .ATTACHED)
    (hclosed : s.is_closed = false) :
    detach s true none =
      ({ s with pending_deliveries := [], is_closed := true, state := .ATTACH_SENT },
       (s.pending_deliveries.map fun tag => .settled tag .NotDelivered none) ++
         [.detachFrame s.handle true none],
       none) := by
  unfold detach remove_pending_deliveries outgoing_detach set_state
  simp [hstate, hclosed]

/-- Witness for C7 at a concrete attached link with two pending
deliveries. -/
theorem c7_detach_close_witness :
    sampleLink.state = .ATTACHED ∧ sampleLink.is_closed = false ∧
    detach sampleLink true none =
      ({ sampleLink with
          pending_deliveries := []
          is_closed := true
          state := .ATTACH_SENT },
       (sampleLink.pending_deliveries.map fun tag => .settled tag .NotDelivered none) ++
         [.detachFrame sampleLink.handle true none],
       none) :=
  ⟨rfl, rfl, c7_detach_close sampleLink rfl rfl⟩

/-- C8: an incoming attach whose peer omitted `source` or `target`, on
a link that is not closed, notifies and clears all pending deliveries,
moves the link to `DETACHED`, raises the invalid-link error, and
records none of the remote attributes. -/
theorem c8_incoming_attach_missing_endpoint (s : Link) (frame : AttachFrame)
    (hclosed : s.is_closed = false)
    (hmiss : frame.source = none ∨ frame.target = none) :
    incoming_attach s frame =
      ({ s with pending_deliveries := [], state := .DETACHED },
       s.pending_deliveries.map (fun tag => .settled tag .NotDelivered none),
       some (.valueError "Invalid link")) := by
  unfold incoming_attach remove_pending_deliveries set_state
  simp [hclosed, hmiss]

/-- Witness for C8 at a concrete link and a source-less frame. -/
theorem c8_incoming_attach_missing_endpoint_witness :
    sampleLink.is_closed = false ∧
    (noSourceFrame.source = none ∨ noSourceFrame.target = none) ∧
    incoming_attach sampleLink noSourceFrame =
      ({ sampleLink with pending_deliveries := [], state := .DETACHED },
       sampleLink.pending_deliveries.map (fun tag => .settled tag .NotDelivered none),
       some (.valueError "Invalid link")) :=
  ⟨rfl, Or.inl rfl,
   c8_incoming_attach_missing_endpoint sampleLink noSourceFrame rfl (Or.inl rfl)⟩

/-- C9: `detach` on a link whose `is_closed` flag is set raises
`ValueError("Link already closed.")` before any cleanup, emission or
state change: the returned link is the input unchanged and no event is
emitted. -/
theorem c9_detach_on_closed (s : Link) (close : Bool) (error : Option String)
    (hclosed : s.is_closed = true) :
    detach s close error = (s, [], some (.valueError "Link already closed.")) := by
  unfold detach
  simp [hclosed]

/-- Witness for C9 at a concrete closed link. -/
theorem c9_detach_on_closed_witness :
    closedLink.is_closed = true ∧
    detach closedLink true none =
      (closedLink, [], some (.valueError "Link already closed.")) :=
  ⟨rfl, c9_detach_on_closed closedLink true none rfl⟩

/-! ## Reduction lemmas for the decoder -/

/-- Bind on a successful `Except` step. -/
@[simp] theorem except_ok_bind {ε α β : Type} (a : α) (f : α → Except ε β) :
    (Except.ok a : Except ε α) >>= f = f a := rfl

/-- Bind on a failed `Except` step. -/
@[simp] theorem except_error_bind {ε α β : Type} (e : ε) (f : α → Except ε β) :
    (Except.error e : Except ε α) >>= f = Except.error e := rfl

/-- The element loop returns exactly as many values as it was asked to
decode. -/
theorem elemLoop_length (dec : Nat → Bytes → DecRes) :
    ∀ (n : Nat) (buffer buf : Bytes) (values : List AVal),
      elemLoop dec n buffer = .ok (buf, values) → values.length = n := by
  intro n
  induction n with
  | zero =>
      intro buffer buf values h
      simp only [elemLoop] at h
      cases h
      rfl
  | succ n ih =>
      intro buffer buf values h
      simp only [elemLoop] at h
      cases hc : pyGet buffer 0 with
      | error e => rw [hc] at h; simp at h
      | ok c =>
          rw [hc] at h
          simp only [except_ok_bind] at h
          cases hd : dec c (buffer.drop 1) with
          | error e => rw [hd] at h; simp at h
          | ok r =>
              obtain ⟨b1, v⟩ := r
              rw [hd] at h
              simp only [except_ok_bind] at h
              cases hl : elemLoop dec n b1 with
              | error e => rw [hl] at h; simp at h
              | ok r2 =>
                  obtain ⟨b2, vs⟩ := r2
                  rw [hl] at h
                  simp only [except_ok_bind] at h
                  cases h
                  simpa using ih _ _ _ hl

/-- The pair reader returns exactly as many pairs as it was asked to
decode. -/
theorem decodePairs_length (dec : Nat → Bytes → DecRes) :
    ∀ (n : Nat) (buffer buf : Bytes) (pairs : List (AVal × AVal)),
      decodePairs dec n buffer = .ok (buf, pairs) → pairs.length = n := by
  intro n
  induction n with
  | zero =>
      intro buffer buf pairs h
      simp only [decodePairs] at h
      cases h
      rfl
  | succ n ih =>
      intro buffer buf pairs h
      simp only [decodePairs] at h
      cases hck : pyGet buffer 0 with
      | error e => rw [hck] at h; simp at h
      | ok ck =>
          rw [hck] at h
          simp only [except_ok_bind] at h
          cases hk : dec ck (buffer.drop 1) with
          | error e => rw [hk] at h; simp at h
          | ok rk =>
              obtain ⟨b1, key⟩ := rk
              rw [hk] at h
              simp only [except_ok_bind] at h
              cases hcv : pyGet b1 0 with
              | error e => rw [hcv] at h; simp at h
              | ok cv =>
                  rw [hcv] at h
                  simp only [except_ok_bind] at h
                  cases hv : dec cv (b1.drop 1) with
                  | error e => rw [hv] at h; simp at h
                  | ok rv =>
                      obtain ⟨b2, value⟩ := rv
                      rw [hv] at h
                      simp only [except_ok_bind] at h
                      cases hp : decodePairs dec n b2 with
                      | error e => rw [hp] at h; simp at h
                      | ok rp =>
                          obtain ⟨b3, ps⟩ := rp
                          rw [hp] at h
                          simp only [except_ok_bind] at h
                          cases h
                          simpa using ih _ _ _ hp

/-- Simple keys are hashable. -/
theorem AVal.hashable_of_simpleKey (a : AVal) (h : a.simpleKey = true) :
    a.hashable = true := by
  cases a <;> simp_all [AVal.simpleKey, AVal.hashable]

/-- The Python map loop agrees with the pair reader: running `n`
iterations over `buffer` from the accumulated dict `acc` decodes the
same `n` pairs the pair reader produces and folds them into `acc`,
provided every decoded key is hashable (an unhashable key raises
`TypeError` at its insert instead). -/
theorem mapLoop_of_decodePairs (dec : Nat → Bytes → DecRes) :
    ∀ (n : Nat) (acc : List (AVal × AVal)) (buffer buf : Bytes)
      (pairs : List (AVal × AVal)),
      decodePairs dec n buffer = .ok (buf, pairs) →
      (∀ p ∈ pairs, AVal.hashable p.1 = true) →
      mapLoop dec n acc buffer =
        .ok (buf, pairs.foldl (fun d p => pyDictInsert d p.1 p.2) acc) := by
  intro n
  induction n with
  | zero =>
      intro acc buffer buf pairs h hkeys
      simp only [decodePairs] at h
      cases h
      rfl
  | succ n ih =>
      intro acc buffer buf pairs h hkeys
      simp only [decodePairs] at h
      simp only [mapLoop]
      cases hck : pyGet buffer 0 with
      | error e => rw [hck] at h; simp at h
      | ok ck =>
          rw [hck] at h
          simp only [except_ok_bind] at h ⊢
          cases hk : dec ck (buffer.drop 1) with
          | error e => rw [hk] at h; simp at h
          | ok rk =>
              obtain ⟨b1, key⟩ := rk
              rw [hk] at h
              simp only [except_ok_bind] at h ⊢
              cases hcv : pyGet b1 0 with
              | error e => rw [hcv] at h; simp at h
              | ok cv =>
                  rw [hcv] at h
                  simp only [except_ok_bind] at h ⊢
                  cases hv : dec cv (b1.drop 1) with
                  | error e => rw [hv] at h; simp at h
                  | ok rv =>
                      obtain ⟨b2, value⟩ := rv
                      rw [hv] at h
                      simp only [except_ok_bind] at h ⊢
                      cases hp : decodePairs dec n b2 with
                      | error e => rw [hp] at h; simp at h
                      | ok rp =>
                          obtain ⟨b3, ps⟩ := rp
                          rw [hp] at h
                          simp only [except_ok_bind] at h
                          cases h
                          have hk : AVal.hashable key = true :=
                            hkeys (key, value) (by simp)
                          have hset : pyDictSet acc key value =
                              .ok (pyDictInsert acc key value) := by
                            simp [pyDictSet, hk]
                          rw [hset]
                          simp only [except_ok_bind]
                          simpa using
                            ih (pyDictInsert acc key value) _ _ _ hp
                              (fun p hmem => hkeys p (List.mem_cons_of_mem _ hmem))

/-! ## Claims about the decoder -/

/-- C1 (code bug): the described-value decoder never consults the
descriptor byte.  On `53 24 40` — descriptor small-ulong 36
(`accepted`), body null, nothing following — the claim demands the
single-entry mapping `\x7b"accepted": None\x7d`, but the decoder
returns the bare body value: the `_COMPOSITES` lookup reads the window
remaining AFTER the body (here empty, so `IndexError` falls through).
Conversely `53 63 40 00 24` has descriptor 99, which is no composite,
yet IS wrapped as `accepted` because the second byte of the remaining
window is 36. -/
theorem c1_composite_keyed_on_trailing_bytes :
    DECODE_BY_CONSTRUCTOR 2 0 [83, 36, 64] = .ok ([], .null) ∧
    AVal.null ≠ AVal.map [(.str "accepted", .null)] ∧
    DECODE_BY_CONSTRUCTOR 2 0 [83, 99, 64, 0, 36] =
      .ok ([0, 36], .map [(.str "accepted", .null)]) :=
  ⟨rfl, by simp, rfl⟩

/-- C2 (counterexample): binary8 with declared length 5 over a window
holding only two content bytes decodes WITHOUT error — Python slices
clamp — refuting that a window shorter than the declared length
produces a decode error; and the decode errors raised at the two
distinct unknown format codes 1 and 2 are the SAME value (the empty
table slot's `TypeError`, Python's "'NoneType' object is not
callable"), so the error raised for an unknown code does not report
the offending format code. -/
theorem c2_counterexample_truncation_and_uniform_error :
    decode_binary_small [5, 97, 98] = .ok ([], .bytes [97, 98]) ∧
    DECODE_BY_CONSTRUCTOR 1 1 [] = .error .typeError ∧
    DECODE_BY_CONSTRUCTOR 1 2 [] = .error .typeError :=
  ⟨rfl, rfl, rfl⟩

/-- C2 (amended): a leading format code outside the dispatch table is a
decode error — the empty table slot raises the same `TypeError` for
every unknown code, carrying neither the code nor an offset — and no
input is consumed because the failure aborts the decode; but a window
shorter than a declared binary/string/symbol length is NOT detected:
the decoder returns whatever bytes are present and an exhausted
window. -/
theorem c2_amended_unknown_code_and_truncation (f code len : Nat)
    (buffer rest : Bytes) (hcode : code ∉ DISPATCH_CODES)
    (hlen : rest.length < len) :
    DECODE_BY_CONSTRUCTOR (f + 1) code buffer = .error .typeError ∧
    decode_binary_small (len :: rest) = .ok ([], blobOrNull rest) := by
  constructor
  · simp only [DECODE_BY_CONSTRUCTOR]
    split <;> first | rfl | exact absurd (by decide) hcode
  · simp only [decode_binary_small, pyGet, List.get?, except_ok_bind]
    have hdrop : List.drop (1 + len) (len :: rest) = ([] : Bytes) :=
      List.drop_eq_nil_of_le (by simp; omega)
    rw [hdrop]
    simp only [List.drop_succ_cons, List.drop_zero]
    rw [List.take_of_length_le (by omega)]

/-- Witness for the amended C2 at format code 1 and a truncated
binary8. -/
theorem c2_amended_witness :
    (1 ∉ DISPATCH_CODES ∧ ([97, 98] : Bytes).length < 5) ∧
    (DECODE_BY_CONSTRUCTOR 1 1 [] = .error .typeError ∧
     decode_binary_small [5, 97, 98] = .ok ([], blobOrNull [97, 98])) :=
  ⟨⟨by decide, by decide⟩,
   c2_amended_unknown_code_and_truncation 0 1 5 [] [97, 98] (by decide) (by decide)⟩

/-- C3 (counterexample): a map8 whose declared count is 1 (odd) is NOT
rejected as a decode error: the single `range(0, 1, 2)` step consumes
one key AND one value — here the two null bytes that follow — and the
decode succeeds.  Conversely an even count does not guarantee the
claimed pair consumption either: on count 2 with a list0 key (bytes
`09 02 45 40`) the decode fails, because storing the unhashable
decoded list as a dict key raises `TypeError`. -/
theorem c3_counterexample_odd_count_not_rejected :
    DECODE_BY_CONSTRUCTOR 2 193 [9, 1, 64, 64] =
      .ok ([], .map [(.null, .null)]) ∧
    DECODE_BY_CONSTRUCTOR 2 193 [9, 2, 69, 64] = .error .typeError :=
  ⟨rfl, rfl⟩

/-- C3 (amended): the map decoders perform no parity check; they run
`⌈count/2⌉` iterations, each consuming one key and then one value, so
an odd count swallows one extra value from the following bytes instead
of failing.  For every even count whose decoded keys are hashable
(an unhashable key — a decoded list or map — raises `TypeError` at its
insert) this is exactly `count/2` key/value pairs: map8 (0xC1) and
map32 (0xD1) both decode precisely the pairs the sequential pair
reader produces, folded into a dict, halting after the value of the
last pair.  The keys are restricted to `AVal.simpleKey` (None, int,
bytes, str, UUID), the classes on which the embedded dict coincides
with the CPython dict. -/
theorem c3_amended_even_count_pairs (f sz s0 s1 s2 s3 c0 c1 c2 c3 cnt : Nat)
    (rest buf : Bytes) (pairs : List (AVal × AVal)) (heven : cnt % 2 = 0)
    (hbe : ((c0 * 256 + c1) * 256 + c2) * 256 + c3 = cnt)
    (h : decodePairs (DECODE_BY_CONSTRUCTOR f) (cnt / 2) rest = .ok (buf, pairs))
    (hkeys : ∀ p ∈ pairs, AVal.simpleKey p.1 = true) :
    DECODE_BY_CONSTRUCTOR (f + 1) 193 (sz :: cnt :: rest) =
      .ok (buf, .map (pyDictOfPairs pairs)) ∧
    DECODE_BY_CONSTRUCTOR (f + 1) 209
        (s0 :: s1 :: s2 :: s3 :: c0 :: c1 :: c2 :: c3 :: rest) =
      .ok (buf, .map (pyDictOfPairs pairs)) ∧
    pairs.length = cnt / 2 := by
  have hceil : (cnt + 1) / 2 = cnt / 2 := by omega
  have hloop :=
    mapLoop_of_decodePairs (DECODE_BY_CONSTRUCTOR f) (cnt / 2) [] rest buf pairs h
      (fun p hmem => AVal.hashable_of_simpleKey p.1 (hkeys p hmem))
  refine ⟨?_, ?_, decodePairs_length _ _ _ _ _ h⟩
  · simp only [DECODE_BY_CONSTRUCTOR, decode_map_small, pyGet, List.get?,
      except_ok_bind, List.drop_succ_cons, List.drop_zero, hceil, hloop,
      pyDictOfPairs]
  · have hval : beNat ((c0 :: c1 :: c2 :: c3 :: rest).take 4) =
        (((0 * 256 + c0) * 256 + c1) * 256 + c2) * 256 + c3 := rfl
    have hbe4 : beNat ((c0 :: c1 :: c2 :: c3 :: rest).take 4) = cnt := by
      rw [hval]; omega
    simp only [DECODE_BY_CONSTRUCTOR, decode_map_large, List.drop_succ_cons,
      List.drop_zero, unpackBE]
    rw [if_pos (by simp)]
    simp only [hbe4, except_ok_bind, hceil, hloop, pyDictOfPairs]

/-- Witness for the amended C3: a map8 and a map32 with count 2
holding the single pair (null, null). -/
theorem c3_amended_even_count_pairs_witness :
    ((2 : Nat) % 2 = 0 ∧ ((0 * 256 + 0) * 256 + 0) * 256 + 2 = 2 ∧
     decodePairs (DECODE_BY_CONSTRUCTOR 1) (2 / 2) [64, 64] =
       .ok ([], [(.null, .null)]) ∧
     (∀ p ∈ ([(AVal.null, AVal.null)] : List (AVal × AVal)),
       AVal.simpleKey p.1 = true)) ∧
    (DECODE_BY_CONSTRUCTOR 2 193 [9, 2, 64, 64] =
       .ok ([], .map (pyDictOfPairs [(.null, .null)])) ∧
     DECODE_BY_CONSTRUCTOR 2 209 [0, 0, 0, 9, 0, 0, 0, 2, 64, 64] =
       .ok ([], .map (pyDictOfPairs [(.null, .null)])) ∧
     ([(AVal.null, AVal.null)]).length = 2 / 2) :=
  ⟨⟨rfl, rfl, rfl, by intro p hp; rw [List.mem_singleton] at hp; subst hp; rfl⟩,
   c3_amended_even_count_pairs 1 9 0 0 0 9 0 0 0 2 2 [64, 64] [] [(.null, .null)]
     rfl rfl rfl
     (by intro p hp; rw [List.mem_singleton] at hp; subst hp; rfl)⟩

/-- The shared body of the three 8-bit-length blob decoders
(`_decode_binary_small` and its string/symbol clones), on a window
holding at least the declared number of content bytes. -/
theorem small_blob_run (len : Nat) (rest : Bytes) (hlen : len ≤ rest.length) :
    decode_binary_small (len :: rest) =
      .ok (rest.drop len, if len = 0 then AVal.null else .bytes (rest.take len)) := by
  have h1 : (len :: rest).drop (1 + len) = rest.drop len := by
    rw [Nat.add_comm]
    simp only [List.drop_succ_cons]
  simp only [decode_binary_small, pyGet, List.get?, except_ok_bind,
    List.drop_succ_cons, List.drop_zero, h1]
  by_cases h0 : len = 0
  · subst h0
    simp [blobOrNull]
  · have hlen2 : (rest.take len).length = len := by
      rw [List.length_take]; omega
    have hne : rest.take len ≠ [] := by
      intro hnil
      rw [hnil] at hlen2
      simp at hlen2
      omega
    simp [blobOrNull, List.isEmpty_iff, hne, h0]

/-- The shared body of the three 32-bit-length blob decoders on a
window holding at least the declared number of content bytes. -/
theorem large_blob_run (l0 l1 l2 l3 len : Nat) (rest : Bytes)
    (hlen : len ≤ rest.length)
    (hbe : ((l0 * 256 + l1) * 256 + l2) * 256 + l3 = len) :
    decode_binary_large (l0 :: l1 :: l2 :: l3 :: rest) =
      .ok (rest.drop len, if len = 0 then AVal.null else .bytes (rest.take len)) := by
  have hval : beNat ((l0 :: l1 :: l2 :: l3 :: rest).take 4) =
      (((0 * 256 + l0) * 256 + l1) * 256 + l2) * 256 + l3 := rfl
  have hbe4 : beNat ((l0 :: l1 :: l2 :: l3 :: rest).take 4) = len := by
    rw [hval]; omega
  have h1 : (l0 :: l1 :: l2 :: l3 :: rest).drop (4 + len) = rest.drop len := by
    rw [Nat.add_comm]
    simp only [List.drop_succ_cons]
  simp only [decode_binary_large, unpackBE]
  rw [if_pos (by simp)]
  simp only [hbe4, except_ok_bind, h1, List.drop_succ_cons, List.drop_zero]
  by_cases h0 : len = 0
  · subst h0
    simp [blobOrNull]
  · have hlen2 : (rest.take len).length = len := by
      rw [List.length_take]; omega
    have hne : rest.take len ≠ [] := by
      intro hnil
      rw [hnil] at hlen2
      simp at hlen2
      omega
    simp [blobOrNull, List.isEmpty_iff, hne, h0]

/-- C4: for each of the six binary/string/symbol format codes, a
declared length of zero decodes to the absent value (None, not an empty
blob) with the window resuming immediately after the length field, and
a non-zero declared length `N` (with `N` content bytes available)
decodes to exactly the `N` bytes following the length field. -/
theorem c4_blob_zero_absent (fuel len l0 l1 l2 l3 : Nat) (rest : Bytes)
    (hlen : len ≤ rest.length)
    (hbe : ((l0 * 256 + l1) * 256 + l2) * 256 + l3 = len) :
    (∀ code ∈ ([160, 161, 163] : List Nat),
      DECODE_BY_CONSTRUCTOR (fuel + 1) code (len :: rest) =
        .ok (rest.drop len, if len = 0 then AVal.null else .bytes (rest.take len))) ∧
    (∀ code ∈ ([176, 177, 179] : List Nat),
      DECODE_BY_CONSTRUCTOR (fuel + 1) code (l0 :: l1 :: l2 :: l3 :: rest) =
        .ok (rest.drop len, if len = 0 then AVal.null else .bytes (rest.take len))) ∧
    AVal.null ≠ AVal.bytes [] := by
  refine ⟨?_, ?_, by simp⟩ <;> intro code hc <;> fin_cases hc <;>
    simp only [DECODE_BY_CONSTRUCTOR] <;>
    first
      | exact small_blob_run len rest hlen
      | exact large_blob_run l0 l1 l2 l3 len rest hlen hbe

/-- Witness for C4 at declared length zero (the absent-value quirk). -/
theorem c4_blob_zero_absent_witness :
    ((0 : Nat) ≤ ([7] : Bytes).length ∧
     ((0 * 256 + 0) * 256 + 0) * 256 + 0 = 0) ∧
    ((∀ code ∈ ([160, 161, 163] : List Nat),
       DECODE_BY_CONSTRUCTOR 1 code [0, 7] =
         .ok (([7] : Bytes).drop 0,
           if 0 = 0 then AVal.null else .bytes (([7] : Bytes).take 0))) ∧
     (∀ code ∈ ([176, 177, 179] : List Nat),
       DECODE_BY_CONSTRUCTOR 1 code [0, 0, 0, 0, 7] =
         .ok (([7] : Bytes).drop 0,
           if 0 = 0 then AVal.null else .bytes (([7] : Bytes).take 0))) ∧
     AVal.null ≠ AVal.bytes []) :=
  ⟨⟨by decide, by decide⟩,
   c4_blob_zero_absent 0 0 0 0 0 0 [7] (by decide) (by decide)⟩

/-- C5: whenever the header reads and the field loop succeed, a frame
whose performative code (byte 2) is 20 decodes to the declared fields
plus one appended payload-section mapping — the result of
`decode_payload` on the bytes remaining after the fields — for a total
of count + 1 entries; any other performative code yields exactly the
declared count of fields. -/
theorem c5_transfer_appends_payload (f ft cnt : Nat) (data buf : Bytes)
    (fields : List AVal)
    (h2 : pyGet data 2 = .ok ft) (h5 : pyGet data 5 = .ok cnt)
    (hf : elemLoop (DECODE_BY_CONSTRUCTOR f) cnt (data.drop 6) = .ok (buf, fields)) :
    (∀ payload, ft = 20 → decode_payload f buf = .ok payload →
      decode_frame f data = .ok (ft, fields ++ [AVal.map payload]) ∧
      (fields ++ [AVal.map payload]).length = cnt + 1) ∧
    (ft ≠ 20 →
      decode_frame f data = .ok (ft, fields) ∧ fields.length = cnt) := by
  have hlen := elemLoop_length (DECODE_BY_CONSTRUCTOR f) cnt (data.drop 6) buf fields hf
  constructor
  · intro payload h20 hp
    subst h20
    refine ⟨?_, by simp [hlen]⟩
    simp only [decode_frame, h2, h5, hf, hp, except_ok_bind]
    simp
  · intro hne
    refine ⟨?_, hlen⟩
    simp only [decode_frame, h2, h5, hf, except_ok_bind]
    rw [if_neg hne]

/-- Witness for C5 at a concrete transfer frame with one null field and
no trailing payload bytes. -/
theorem c5_transfer_appends_payload_witness :
    (pyGet [0, 83, 20, 192, 1, 1, 64] 2 = .ok 20 ∧
     pyGet [0, 83, 20, 192, 1, 1, 64] 5 = .ok 1 ∧
     elemLoop (DECODE_BY_CONSTRUCTOR 1) 1 (([0, 83, 20, 192, 1, 1, 64] : Bytes).drop 6) =
       .ok ([], [AVal.null]) ∧
     decode_payload 1 [] = .ok []) ∧
    (decode_frame 1 [0, 83, 20, 192, 1, 1, 64] =
       .ok (20, [AVal.null] ++ [.map []]) ∧
     ([AVal.null] ++ [AVal.map []]).length = 1 + 1) :=
  ⟨⟨rfl, rfl, rfl, rfl⟩,
   (c5_transfer_appends_payload 1 20 1 [0, 83, 20, 192, 1, 1, 64] [] [AVal.null]
      rfl rfl rfl).1 [] rfl rfl⟩

/-- C10: `decode_payload` on an exhausted buffer returns the empty
mapping without error, so a transfer frame whose bytes end exactly at
the declared fields still gains the synthetic payload field, whose
value is the empty mapping. -/
theorem c10_payload_of_empty_buffer (f cnt : Nat) (data : Bytes)
    (fields : List AVal)
    (h2 : pyGet data 2 = .ok 20) (h5 : pyGet data 5 = .ok cnt)
    (hf : elemLoop (DECODE_BY_CONSTRUCTOR f) cnt (data.drop 6) = .ok ([], fields)) :
    decode_payload f [] = .ok [] ∧
    decode_frame f data = .ok (20, fields ++ [AVal.map []]) := by
  refine ⟨rfl, ?_⟩
  simp only [decode_frame, h2, h5, hf, except_ok_bind]
  simp only [decode_payload, payloadLoop, List.length_nil]
  simp

/-- Witness for C10 at a concrete transfer frame exhausted at the end
of its single declared field. -/
theorem c10_payload_of_empty_buffer_witness :
    (pyGet [0, 83, 20, 192, 1, 1, 64] 2 = .ok 20 ∧
     pyGet [0, 83, 20, 192, 1, 1, 64] 5 = .ok 1 ∧
     elemLoop (DECODE_BY_CONSTRUCTOR 1) 1 (([0, 83, 20, 192, 1, 1, 64] : Bytes).drop 6) =
       .ok ([], [AVal.null])) ∧
    (decode_payload 1 [] = .ok [] ∧
     decode_frame 1 [0, 83, 20, 192, 1, 1, 64] = .ok (20, [AVal.null] ++ [.map []])) :=
  ⟨⟨rfl, rfl, rfl⟩,
   c10_payload_of_empty_buffer 1 1 [0, 83, 20, 192, 1, 1, 64] [AVal.null] rfl rfl rfl⟩

end UAMQP
